import Mathlib

/-!
A verification development for the financial forecasting engine in
`src/finagle/company.py` (class `company`).  The per-year columns of the
pandas dataframe `self.fin` are embedded as functions `ℕ → ℚ`; the
constructor arguments become an `Assumptions` record.  Loops over years
become structural recursions, whole-column dataframe arithmetic becomes
pointwise definitions, and `scipy.interpolate.interp1d` over the anchor
lists built by `__stream` becomes an explicit piecewise-linear
interpolation over the same anchor list.
-/

namespace Company

/-- Constructor arguments of `company.__init__` that the cash-flow engine
reads: cost of debt `rd`, marginal tax rate `t`, terminal growth `gt`,
terminal return on invested capital `roict`, optional year-1 effective tax
rate `te`, final forecast year `year` (horizon H), and the dividend
schedule `self.dividend`. -/
structure Assumptions where
  rd : ℚ
  t : ℚ
  gt : ℚ
  roict : ℚ
  te : Option ℚ
  year : ℕ
  dividend : List ℚ

/-- The year-indexed table `self.fin`.  Each column is a function from the
year index `0..H` to a rational value.  `da_len` records how many leading
entries of the `da` column are defined (non-NaN in the source); the
remaining entries are the missing tail that `__stream` interpolates. -/
structure Dataset where
  ebitda : ℕ → ℚ
  sbc : ℕ → ℚ
  capex : ℕ → ℚ
  dwc : ℕ → ℚ
  debt : ℕ → ℚ
  cash : ℕ → ℚ
  nol : ℕ → ℚ
  noa : ℕ → ℚ
  tax : ℕ → ℚ
  tax_cash : ℕ → ℚ
  interest : ℕ → ℚ
  da : ℕ → ℚ
  da_len : ℕ
  income_pretax : ℕ → ℚ
  income_taxable : ℕ → ℚ
  dDebt : ℕ → ℚ
  MnA : ℕ → ℚ
  buybacks : ℕ → ℚ
  shares : ℕ → ℚ
  fcf : ℕ → ℚ
  fcfe : ℕ → ℚ
  fcff : ℕ → ℚ
  dividend_policy : ℕ → ℚ
  dividend : ℕ → ℚ
  debt_Target : ℕ → ℚ

/-! ## The stream interpolator (`company.__stream`, lines 136-165)

`__stream` builds the x-list `[0, 1, ..., length-1, year]`, the y-list
`sf ++ [st]`, feeds them to `scipy.interpolate.interp1d` and evaluates the
interpolant at every year `0..year`.  `interp1d` below is that
interpolant: on a query `q` it finds the first segment whose right anchor
is `≥ q` (scipy uses `searchsorted` clipped to `[1, len-1]`, which picks
the same segment for the integer queries used here) and interpolates
linearly inside it. -/

def interp1d : List (ℚ × ℚ) → ℚ → ℚ
  | [], _ => 0
  | [(_, y)], _ => y
  | (x0, y0) :: (x1, y1) :: rest, q =>
    if q ≤ x1 then y0 + (y1 - y0) * (q - x0) / (x1 - x0)
    else interp1d ((x1, y1) :: rest) q

/-- The anchor list `{(k, sf k) for k < len} ++ [(year, st)]` of
`__stream`: explicit forecast values at years `0..len-1` plus the terminal
anchor at year `year`. -/
def streamAnchors (sf : ℕ → ℚ) (st : ℚ) (year : ℕ) : ℕ → ℕ → List (ℚ × ℚ)
  | _, 0 => [((year : ℚ), st)]
  | a, n + 1 => ((a : ℚ), sf a) :: streamAnchors sf st year (a + 1) n

/-- `__stream(sf, st)`: the dense per-year sequence produced by evaluating
the interpolant through the anchors at each year index. -/
def stream (sf : ℕ → ℚ) (len : ℕ) (st : ℚ) (year : ℕ) : ℕ → ℚ :=
  fun j => interp1d (streamAnchors sf st year 0 len) (j : ℚ)

/-! ## The tax / NOL / FCF recurrences of `fcf_from_ebitda` (lines 446-522) -/

/-- `C = self.gt/self.roict*(1-self.t)` (line 464). -/
def Cterm (A : Assumptions) : ℚ := A.gt / A.roict * (1 - A.t)

/-- The solved terminal-year depreciation
`dat = (capex[-1] - C*ebitda[-1])/(1-C)` (line 465). -/
def daT (A : Assumptions) (d : Dataset) : ℚ :=
  (d.capex A.year - Cterm A * d.ebitda A.year) / (1 - Cterm A)

/-- Recomputed interest column: `interest = rd * debt.shift(1)` with the
year-0 actual saved and restored (lines 455-457). -/
def interestF (A : Assumptions) (d : Dataset) : ℕ → ℚ
  | 0 => d.interest 0
  | k + 1 => A.rd * d.debt k

/-- The interpolated depreciation column `da = __stream(da, dat)`
(line 469). -/
def daF (A : Assumptions) (d : Dataset) : ℕ → ℚ :=
  stream d.da d.da_len (daT A d) A.year

/-- `income_pretax = ebitda - sbc - da - interest` (lines 470-471). -/
def ipF (A : Assumptions) (d : Dataset) : ℕ → ℚ :=
  fun i => d.ebitda i - d.sbc i - daF A d i - interestF A d i

/-- `dDebt = debt - debt.shift(1)` with `dDebt[0] = 0` (lines 472-474). -/
def dDebtF (d : Dataset) : ℕ → ℚ
  | 0 => 0
  | k + 1 => d.debt (k + 1) - d.debt k

/-- Year-1 effective tax rate: the supplied `self.te`, or the blend
`tax1/income_pretax[1]` with `tax0 = max(t*income_pretax[0], tax[0])` and
`tax1 = tax0 + t*(income_pretax[1] - income_pretax[0])` (lines 481-486). -/
def teF (A : Assumptions) (d : Dataset) : ℚ :=
  match A.te with
  | some x => x
  | none =>
      (max (A.t * ipF A d 0) (d.tax 0) + A.t * (ipF A d 1 - ipF A d 0)) / ipF A d 1

/-- The NOL waterfall `nol[i] = max(nol[i-1] - income_pretax[i], 0)`
(line 491), seeded with the year-0 actual. -/
def nolSeq (nol0 : ℚ) (ip : ℕ → ℚ) : ℕ → ℚ
  | 0 => nol0
  | i + 1 => max (nolSeq nol0 ip i - ip (i + 1)) 0

/-- Taxable income.  Year 0 is
`max(income_pretax[0]*(1 - nol[0] > 0), 0)` (line 489); note that by
Python operator precedence the parenthesised factor is
`(1 - nol[0]) > 0`, i.e. `nol[0] < 1`, coerced to `0` or `1`.  Years
`i ≥ 1` are `max(0, income_pretax[i] - nol[i-1])` (line 492). -/
def taxableSeq (nol0 : ℚ) (ip : ℕ → ℚ) : ℕ → ℚ
  | 0 => max (ip 0 * (if 0 < 1 - nol0 then (1 : ℚ) else 0)) 0
  | i + 1 => max 0 (ip (i + 1) - nolSeq nol0 ip i)

/-- Book tax: year 0 keeps the actual, year 1 uses the effective rate on
positive pretax income, later years accrue the marginal rate on the
incremental positive pretax income (lines 494, 497). -/
def taxSeq (tax0 te t : ℚ) (ip : ℕ → ℚ) : ℕ → ℚ
  | 0 => tax0
  | 1 => te * max (ip 1) 0
  | i + 2 => taxSeq tax0 te t ip (i + 1) + t * (max (ip (i + 2)) 0 - max (ip (i + 1)) 0)

/-- `nol[i]` inside `fcf_from_ebitda`. -/
def nolF (A : Assumptions) (d : Dataset) : ℕ → ℚ := nolSeq (d.nol 0) (ipF A d)

/-- `income_taxable[i]` inside `fcf_from_ebitda`. -/
def taxableF (A : Assumptions) (d : Dataset) : ℕ → ℚ := taxableSeq (d.nol 0) (ipF A d)

/-- `tax[i]` inside `fcf_from_ebitda`. -/
def taxF (A : Assumptions) (d : Dataset) : ℕ → ℚ :=
  taxSeq (d.tax 0) (teF A d) A.t (ipF A d)

/-- Cash tax: `tax_cash[0] = tax[0]` (line 479) and
`tax_cash[i] = tax[i] + t*min(nol[i] - nol[i-1], 0)` (lines 495, 498). -/
def taxCashF (A : Assumptions) (d : Dataset) : ℕ → ℚ
  | 0 => d.tax 0
  | k + 1 => taxF A d (k + 1) + A.t * min (nolF A d (k + 1) - nolF A d k) 0

/-- `fcf = ebitda - sbc - tax_cash - capex - dwc - interest`
(lines 502-503). -/
def fcfF (A : Assumptions) (d : Dataset) : ℕ → ℚ :=
  fun i => d.ebitda i - d.sbc i - taxCashF A d i - d.capex i - d.dwc i - interestF A d i

/-- `fcfe = ebitda - sbc - tax_cash - capex - dwc + dDebt - interest - MnA`
(lines 504-505). -/
def fcfeF (A : Assumptions) (d : Dataset) : ℕ → ℚ :=
  fun i => d.ebitda i - d.sbc i - taxCashF A d i - d.capex i - d.dwc i
    + dDebtF d i - interestF A d i - d.MnA i

/-- `fcff = ebitda - sbc - tax_cash - capex - dwc - interest*t - MnA`
(lines 506-507). -/
def fcffF (A : Assumptions) (d : Dataset) : ℕ → ℚ :=
  fun i => d.ebitda i - d.sbc i - taxCashF A d i - d.capex i - d.dwc i
    - interestF A d i * A.t - d.MnA i

/-- The dividend-policy column (lines 509-517): an explicit per-share
schedule for its declared years, thereafter scaled proportionally with
`fcf` and floored at the prior year (the year-0 floor reads the still
zeroed column, i.e. is `0`). -/
def dividendPolicy (sched : List ℚ) (shares fcf : ℕ → ℚ) : ℕ → ℚ
  | 0 =>
      if 0 < sched.length then sched.getD 0 0 * shares 0
      else max (sched.getD (sched.length - 1) 0 * shares (sched.length - 1)
        / fcf (sched.length - 1) * fcf 0) 0
  | i + 1 =>
      if i + 1 < sched.length then sched.getD (i + 1) 0 * shares (i + 1)
      else max (sched.getD (sched.length - 1) 0 * shares (sched.length - 1)
        / fcf (sched.length - 1) * fcf (i + 1))
        (dividendPolicy sched shares fcf i)

/-- `cash[1:] = fcfe[1:]; cash = cash.cumsum()` (lines 519-520): the
cumulative sum of `fcfe` from year 1, anchored at the year-0 actual. -/
def cumFcfe (cash0 : ℚ) (fcfe : ℕ → ℚ) : ℕ → ℚ
  | 0 => cash0
  | i + 1 => cumFcfe cash0 fcfe i + fcfe (i + 1)

/-- `company.fcf_from_ebitda` (lines 446-522): recompute interest,
depreciation, pretax and taxable income, the NOL waterfall, book and cash
taxes, the three FCF measures, the dividend columns, cash and
non-operating assets.  Columns not assigned by the method are carried over
unchanged. -/
def fcf_from_ebitda (A : Assumptions) (d : Dataset) : Dataset :=
  { d with
    interest := interestF A d
    da := daF A d
    da_len := A.year + 1
    income_pretax := ipF A d
    dDebt := dDebtF d
    nol := nolF A d
    income_taxable := taxableF A d
    tax := taxF A d
    tax_cash := taxCashF A d
    fcf := fcfF A d
    fcfe := fcfeF A d
    fcff := fcffF A d
    dividend_policy := dividendPolicy A.dividend d.shares (fcfF A d)
    dividend := fun i => (fcfeF A d i - d.buybacks i) / d.shares i
    cash := cumFcfe (d.cash 0) (fcfeF A d)
    noa := fun _ => d.noa 0 }

/-! ## The present-value routine (`company.__pv`, lines 203-230) -/

/-- The seed of the backward walk: the discounted terminal value, either
`cfs[-1]*(1+g)/(r[-1]-g)` when no terminal flow is supplied or
`cft/(r[-1]-g)` when one is (lines 223-226). -/
def pvTerminal (cfs : List ℚ) (g : ℚ) (r : List ℚ) (cft : Option ℚ) : ℚ :=
  match cft with
  | none => cfs.getLastD 0 * (1 + g) / (r.getLastD 0 - g)
  | some c => c / (r.getLastD 0 - g)

/-- The loop `for i, cf in enumerate(cfs[:0:-1], 1):
value.insert(0, (cf+value[0])/(1+r[i]))` over the already reversed rate
list (lines 227-229). -/
def pvFold (rrev : List ℚ) : ℕ → List ℚ → List ℚ → List ℚ
  | _, [], value => value
  | i, cf :: rest, value =>
      pvFold rrev (i + 1) rest ((cf + value.headD 0) / (1 + rrev.getD i 0) :: value)

/-- `company.__pv(cfs, g, r, cft)` with a per-year rate list (a scalar
rate is replicated to the length of `cfs` by the source before the loop,
so the list form subsumes it). -/
def pv (cfs : List ℚ) (g : ℚ) (r : List ℚ) (cft : Option ℚ) : List ℚ :=
  pvFold r.reverse 1 ((cfs.drop 1).reverse) [pvTerminal cfs g r cft]

/-! ## Debt targeting (`company.fcf_to_debt`, lines 524-560) -/

/-- `debt_Target[i] = leverage*ebitda[i] if ebitda[i] > 0 else 0`
(lines 542-543). -/
def debtTargetCol (lev : ℚ) (d : Dataset) : ℕ → ℚ :=
  fun i => if 0 < d.ebitda i then lev * d.ebitda i else 0

/-- The cash available to repay debt out of year `i`: year 0 may also
spend the opening cash balance (lines 553-557). -/
def cashAvail (s : Dataset) : ℕ → ℚ
  | 0 => s.fcf 1 + s.cash 0 - s.MnA 1 - s.dividend_policy 1
  | k + 1 => s.fcf (k + 2) - s.MnA (k + 2) - s.dividend_policy (k + 2)

/-- One iteration of the inner year loop (lines 547-558): if under-levered
move `debt[i+1]` fully to target, otherwise repay the smaller of the
excess and the available cash. -/
def passStep (s : Dataset) (i : ℕ) : Dataset :=
  let dD :=
    if s.debt i - s.debt_Target (i + 1) < 0 then
      -(1 : ℚ) * (s.debt i - s.debt_Target (i + 1))
    else
      -(1 : ℚ) * min (s.debt i - s.debt_Target (i + 1)) (cashAvail s i)
  { s with debt := fun j => if j = i + 1 then s.debt i + dD else s.debt j }

/-- `for i in range(start, start+cnt): <passStep>`: the inner year loop as
a recursion on the remaining iteration count. -/
def passFrom : Dataset → ℕ → ℕ → Dataset
  | s, _, 0 => s
  | s, i, cnt + 1 => passFrom (passStep s i) (i + 1) cnt

/-- One full relaxation pass `for i in range(year_d-1, self.year)`
(line 547). -/
def onePass (year_d year : ℕ) (s : Dataset) : Dataset :=
  passFrom s (year_d - 1) (year - (year_d - 1))

/-- `company.fcf_to_debt(leverage, year_d)` (lines 524-560): set the
target column, then run exactly three relaxation passes, each followed by
a full `fcf_from_ebitda` recompute (lines 546-559). -/
def fcf_to_debt (A : Assumptions) (lev : ℚ) (year_d : ℕ) (d : Dataset) : Dataset :=
  let d0 := { d with debt_Target := debtTargetCol lev d }
  let s1 := fcf_from_ebitda A (onePass year_d A.year d0)
  let s2 := fcf_from_ebitda A (onePass year_d A.year s1)
  fcf_from_ebitda A (onePass year_d A.year s2)

/-! ## The validation guards the source actually executes

`__stream` (line 148) guards on `np.isnan(st) is True`.  `np.isnan`
returns a `numpy.bool_`, a different object from the Python singleton
`True`, so the `is` comparison is an identity test between objects of
different types.  `fcf_to_debt` (line 539) and `fcf_to_acquire` (line 734)
guard on `self.fin['fcf'].empty`, which for a pandas column holding
`year+1` rows (even all-NaN rows) is `False`.  In both cases the guarded
branch only calls `logging.error` and execution continues. -/

/-- A Python runtime value as far as the `is` test on line 148 is
concerned: either one of the `bool` singletons or a fresh `numpy.bool_`
object. -/
inductive PyVal
  | pyBool : Bool → PyVal
  | npBool : Bool → PyVal

/-- Python `is`: identity.  The `True`/`False` singletons are identical
exactly when equal; a `numpy.bool_` is a distinct freshly allocated object
and is never identical to either singleton (nor to another `numpy.bool_`
from a different call). -/
def pyIs : PyVal → PyVal → Bool
  | PyVal.pyBool a, PyVal.pyBool b => a == b
  | _, _ => false

/-- `pandas.Series.empty` for a column with `n` rows. -/
def seriesEmpty (n : ℕ) : Bool := n == 0

/-! ## Interpolation lemmas: `__stream` is exact at its anchors -/

lemma interp1d_cons₂ (x0 x1 y0 y1 : ℚ) (rest : List (ℚ × ℚ)) (q : ℚ) :
    interp1d ((x0, y0) :: (x1, y1) :: rest) q
      = if q ≤ x1 then y0 + (y1 - y0) * (q - x0) / (x1 - x0)
        else interp1d ((x1, y1) :: rest) q := rfl

lemma streamAnchors_cons (sf : ℕ → ℚ) (st : ℚ) (year a n : ℕ) :
    streamAnchors sf st year a (n + 1)
      = ((a : ℚ), sf a) :: streamAnchors sf st year (a + 1) n := rfl

lemma interp1d_head_exact (a : ℕ) (y0 y1 : ℚ) (rest : List (ℚ × ℚ)) (j : ℕ)
    (h1 : a ≤ j) (h2 : j ≤ a + 1) :
    interp1d (((a : ℚ), y0) :: (((a + 1 : ℕ) : ℚ), y1) :: rest) (j : ℚ)
      = if j = a then y0 else y1 := by
  rw [interp1d_cons₂, if_pos (by exact_mod_cast h2)]
  have hc : ((a + 1 : ℕ) : ℚ) = (a : ℚ) + 1 := by push_cast; ring
  rcases (by omega : j = a ∨ j = a + 1) with h | h
  · subst h
    rw [if_pos rfl, hc]
    simp
  · subst h
    rw [if_neg (by omega), hc]
    have h1q : ((a : ℚ) + 1) - (a : ℚ) = 1 := by ring
    rw [h1q]
    ring

lemma interp_exact_ge2 (sf : ℕ → ℚ) (st : ℚ) (year : ℕ) :
    ∀ n a j : ℕ, a ≤ j → j < a + (n + 2) →
      interp1d (streamAnchors sf st year a (n + 2)) (j : ℚ) = sf j := by
  intro n
  induction n with
  | zero =>
    intro a j h1 h2
    rw [streamAnchors_cons, streamAnchors_cons]
    rw [interp1d_head_exact a (sf a) (sf (a + 1)) _ j h1 (by omega)]
    rcases (by omega : j = a ∨ j = a + 1) with h | h <;> subst h <;> simp
  | succ m ih =>
    intro a j h1 h2
    rw [streamAnchors_cons, streamAnchors_cons]
    by_cases hj : j ≤ a + 1
    · rw [interp1d_head_exact a (sf a) (sf (a + 1)) _ j h1 hj]
      rcases (by omega : j = a ∨ j = a + 1) with h | h <;> subst h <;> simp
    · rw [interp1d_cons₂, if_neg (by exact_mod_cast hj), ← streamAnchors_cons]
      exact ih (a + 1) j (by omega) (by omega)

/-- Exactness of the interpolated stream at the explicit anchors: for any
year index strictly inside the explicit (non-missing) prefix the
interpolant returns the anchor value itself, whatever the terminal anchor
is. -/
lemma stream_exact (sf : ℕ → ℚ) (len : ℕ) (st : ℚ) (year j : ℕ) (hj : j < len) :
    stream sf len st year j = sf j := by
  match len, hj with
  | 1, hj =>
    have hj0 : j = 0 := by omega
    subst hj0
    show interp1d (streamAnchors sf st year 0 1) ((0 : ℕ) : ℚ) = sf 0
    rw [streamAnchors_cons]
    show interp1d ((((0 : ℕ) : ℚ), sf 0) :: ((year : ℚ), st) :: []) ((0 : ℕ) : ℚ) = sf 0
    rw [interp1d_cons₂, if_pos (by exact_mod_cast Nat.zero_le year)]
    simp
  | n + 2, hj =>
    exact interp_exact_ge2 sf st year n 0 j (Nat.zero_le j) (by omega)

/-! ## Projection lemmas for `fcf_from_ebitda` -/

@[simp] lemma ffe_ebitda (A : Assumptions) (d : Dataset) :
    (fcf_from_ebitda A d).ebitda = d.ebitda := rfl

@[simp] lemma ffe_sbc (A : Assumptions) (d : Dataset) :
    (fcf_from_ebitda A d).sbc = d.sbc := rfl

@[simp] lemma ffe_capex (A : Assumptions) (d : Dataset) :
    (fcf_from_ebitda A d).capex = d.capex := rfl

@[simp] lemma ffe_dwc (A : Assumptions) (d : Dataset) :
    (fcf_from_ebitda A d).dwc = d.dwc := rfl

@[simp] lemma ffe_debt (A : Assumptions) (d : Dataset) :
    (fcf_from_ebitda A d).debt = d.debt := rfl

@[simp] lemma ffe_MnA (A : Assumptions) (d : Dataset) :
    (fcf_from_ebitda A d).MnA = d.MnA := rfl

@[simp] lemma ffe_buybacks (A : Assumptions) (d : Dataset) :
    (fcf_from_ebitda A d).buybacks = d.buybacks := rfl

@[simp] lemma ffe_shares (A : Assumptions) (d : Dataset) :
    (fcf_from_ebitda A d).shares = d.shares := rfl

@[simp] lemma ffe_debt_Target (A : Assumptions) (d : Dataset) :
    (fcf_from_ebitda A d).debt_Target = d.debt_Target := rfl

@[simp] lemma ffe_interest (A : Assumptions) (d : Dataset) :
    (fcf_from_ebitda A d).interest = interestF A d := rfl

@[simp] lemma ffe_da (A : Assumptions) (d : Dataset) :
    (fcf_from_ebitda A d).da = daF A d := rfl

@[simp] lemma ffe_da_len (A : Assumptions) (d : Dataset) :
    (fcf_from_ebitda A d).da_len = A.year + 1 := rfl

@[simp] lemma ffe_income_pretax (A : Assumptions) (d : Dataset) :
    (fcf_from_ebitda A d).income_pretax = ipF A d := rfl

@[simp] lemma ffe_dDebt (A : Assumptions) (d : Dataset) :
    (fcf_from_ebitda A d).dDebt = dDebtF d := rfl

@[simp] lemma ffe_nol (A : Assumptions) (d : Dataset) :
    (fcf_from_ebitda A d).nol = nolF A d := rfl

@[simp] lemma ffe_income_taxable (A : Assumptions) (d : Dataset) :
    (fcf_from_ebitda A d).income_taxable = taxableF A d := rfl

@[simp] lemma ffe_tax (A : Assumptions) (d : Dataset) :
    (fcf_from_ebitda A d).tax = taxF A d := rfl

@[simp] lemma ffe_tax_cash (A : Assumptions) (d : Dataset) :
    (fcf_from_ebitda A d).tax_cash = taxCashF A d := rfl

@[simp] lemma ffe_fcf (A : Assumptions) (d : Dataset) :
    (fcf_from_ebitda A d).fcf = fcfF A d := rfl

@[simp] lemma ffe_fcfe (A : Assumptions) (d : Dataset) :
    (fcf_from_ebitda A d).fcfe = fcfeF A d := rfl

@[simp] lemma ffe_fcff (A : Assumptions) (d : Dataset) :
    (fcf_from_ebitda A d).fcff = fcffF A d := rfl

@[simp] lemma ffe_dividend_policy (A : Assumptions) (d : Dataset) :
    (fcf_from_ebitda A d).dividend_policy = dividendPolicy A.dividend d.shares (fcfF A d) := rfl

@[simp] lemma ffe_dividend (A : Assumptions) (d : Dataset) :
    (fcf_from_ebitda A d).dividend = fun i => (fcfeF A d i - d.buybacks i) / d.shares i := rfl

@[simp] lemma ffe_cash (A : Assumptions) (d : Dataset) :
    (fcf_from_ebitda A d).cash = cumFcfe (d.cash 0) (fcfeF A d) := rfl

@[simp] lemma ffe_noa (A : Assumptions) (d : Dataset) :
    (fcf_from_ebitda A d).noa = fun _ => d.noa 0 := rfl

/-! ## Concrete instances used by witnesses and counterexamples -/

/-- A dataset with every column zero (shares 1) and a one-entry `da`
actual, from which the concrete test datasets below deviate in a few
fields. -/
def baseData : Dataset where
  ebitda := fun _ => 0
  sbc := fun _ => 0
  capex := fun _ => 0
  dwc := fun _ => 0
  debt := fun _ => 0
  cash := fun _ => 0
  nol := fun _ => 0
  noa := fun _ => 0
  tax := fun _ => 0
  tax_cash := fun _ => 0
  interest := fun _ => 0
  da := fun _ => 0
  da_len := 1
  income_pretax := fun _ => 0
  income_taxable := fun _ => 0
  dDebt := fun _ => 0
  MnA := fun _ => 0
  buybacks := fun _ => 0
  shares := fun _ => 1
  fcf := fun _ => 0
  fcfe := fun _ => 0
  fcff := fun _ => 0
  dividend_policy := fun _ => 0
  dividend := fun _ => 0
  debt_Target := fun _ => 0

/-- Assumptions realising the spec example for C1: `t = 0.25`,
`rd = 0.08`, no growth, supplied year-1 effective rate `0`. -/
def Ac1 : Assumptions where
  rd := 2 / 25
  t := 1 / 4
  gt := 0
  roict := 3 / 20
  te := some 0
  year := 2
  dividend := [0]

/-- Dataset realising the spec example for C1: at year 1 it produces
`fcf = 100`, `dDebt = 10`, `MnA = 5`, `interest = 8`. -/
def dc1 : Dataset :=
  { baseData with
    ebitda := fun i => if i = 0 then 100 else 108
    debt := fun i => if i = 0 then 100 else 110
    MnA := fun i => if i = 1 then 5 else 0 }

/-- Claim C1 (amended): for every year the code satisfies
`fcfe[i] = fcf[i] + dDebt[i] - MnA[i]` and
`fcff[i] = fcf[i] + interest[i]*(1-t) - MnA[i]` (the claimed
`fcff[i] = fcf[i] - interest[i]*t - MnA[i]` differs by the full interest
charge, which `fcf` subtracts but `fcff` does not); at the example figures
`fcf = 100`, `dDebt = 10`, `MnA = 5`, `interest = 8`, `t = 1/4` this gives
`fcfe = 105` and `fcff = 101`. -/
theorem c1_fcf_identities :
    (∀ (A : Assumptions) (d : Dataset) (i : ℕ),
        (fcf_from_ebitda A d).fcfe i
          = (fcf_from_ebitda A d).fcf i + (fcf_from_ebitda A d).dDebt i
            - (fcf_from_ebitda A d).MnA i
      ∧ (fcf_from_ebitda A d).fcff i
          = (fcf_from_ebitda A d).fcf i
            + (fcf_from_ebitda A d).interest i * (1 - A.t)
            - (fcf_from_ebitda A d).MnA i)
  ∧ (fcf_from_ebitda Ac1 dc1).fcf 1 = 100
  ∧ (fcf_from_ebitda Ac1 dc1).dDebt 1 = 10
  ∧ (fcf_from_ebitda Ac1 dc1).MnA 1 = 5
  ∧ (fcf_from_ebitda Ac1 dc1).interest 1 = 8
  ∧ Ac1.t = 1 / 4
  ∧ (fcf_from_ebitda Ac1 dc1).fcfe 1 = 105
  ∧ (fcf_from_ebitda Ac1 dc1).fcff 1 = 101 := by
  refine ⟨fun A d i => ⟨?_, ?_⟩, ?_, ?_, ?_, ?_, rfl, ?_, ?_⟩
  · show fcfeF A d i = fcfF A d i + dDebtF d i - d.MnA i
    simp only [fcfeF, fcfF]
    ring
  · show fcffF A d i = fcfF A d i + interestF A d i * (1 - A.t) - d.MnA i
    simp only [fcffF, fcfF]
    ring
  all_goals
    norm_num [fcf_from_ebitda, fcfF, fcfeF, fcffF, taxCashF, taxF, taxSeq, nolF,
      nolSeq, ipF, interestF, dDebtF, daF, stream, streamAnchors, interp1d, daT,
      Cterm, teF, dc1, Ac1, baseData]

/-- Claim C1 counterexample: at the spec's own example figures
(`fcf = 100`, `dDebt = 10`, `MnA = 5`, `interest = 8`, `t = 1/4`) the code
does not satisfy `fcff[i] = fcf[i] - interest[i]*t - MnA[i]`: it yields
`fcff = 101`, not `93`. -/
theorem c1_fcff_counterexample :
    (fcf_from_ebitda Ac1 dc1).fcf 1 = 100
  ∧ (fcf_from_ebitda Ac1 dc1).dDebt 1 = 10
  ∧ (fcf_from_ebitda Ac1 dc1).MnA 1 = 5
  ∧ (fcf_from_ebitda Ac1 dc1).interest 1 = 8
  ∧ Ac1.t = 1 / 4
  ∧ ¬ ((fcf_from_ebitda Ac1 dc1).fcff 1
        = (fcf_from_ebitda Ac1 dc1).fcf 1
          - (fcf_from_ebitda Ac1 dc1).interest 1 * Ac1.t
          - (fcf_from_ebitda Ac1 dc1).MnA 1) := by
  norm_num [fcf_from_ebitda, fcfF, fcfeF, fcffF, taxCashF, taxF, taxSeq, nolF,
    nolSeq, ipF, interestF, dDebtF, daF, stream, streamAnchors, interp1d, daT,
    Cterm, teF, dc1, Ac1, baseData]

/-- Assumptions for the C7 example: three years, no debt cost, supplied
effective rate, no growth. -/
def Ac7 : Assumptions where
  rd := 0
  t := 1 / 4
  gt := 0
  roict := 3 / 20
  te := some 0
  year := 2
  dividend := [0]

/-- Dataset for the C7 example: pretax income comes out as
`[-10, 5, 20]` (zero sbc, depreciation and interest) and `nol[0] = 10`. -/
def dc7 : Dataset :=
  { baseData with
    ebitda := fun i => if i = 0 then -10 else if i = 1 then 5 else 20
    nol := fun _ => 10 }

/-- Claim C7: for every year `i ≥ 1` the NOL waterfall of
`fcf_from_ebitda` computes `nol[i] = max(nol[i-1] - income_pretax[i], 0)`
and `income_taxable[i] = max(0, income_pretax[i] - nol[i-1])`, and
`nol[i] ≥ 0` for all `i` whenever `nol[0] ≥ 0`; on the example with
`nol[0] = 10` and `income_pretax = [-10, 5, 20]` this gives `nol[1] = 5`,
`income_taxable[1] = 0`, `nol[2] = 0`, `income_taxable[2] = 15`. -/
theorem c7_nol_waterfall :
    (∀ (A : Assumptions) (d : Dataset) (i : ℕ), 1 ≤ i →
        (fcf_from_ebitda A d).nol i
          = max ((fcf_from_ebitda A d).nol (i - 1)
              - (fcf_from_ebitda A d).income_pretax i) 0
      ∧ (fcf_from_ebitda A d).income_taxable i
          = max 0 ((fcf_from_ebitda A d).income_pretax i
              - (fcf_from_ebitda A d).nol (i - 1)))
  ∧ (∀ (A : Assumptions) (d : Dataset) (i : ℕ),
      0 ≤ d.nol 0 → 0 ≤ (fcf_from_ebitda A d).nol i)
  ∧ dc7.nol 0 = 10
  ∧ (fcf_from_ebitda Ac7 dc7).income_pretax 0 = -10
  ∧ (fcf_from_ebitda Ac7 dc7).income_pretax 1 = 5
  ∧ (fcf_from_ebitda Ac7 dc7).income_pretax 2 = 20
  ∧ (fcf_from_ebitda Ac7 dc7).nol 1 = 5
  ∧ (fcf_from_ebitda Ac7 dc7).income_taxable 1 = 0
  ∧ (fcf_from_ebitda Ac7 dc7).nol 2 = 0
  ∧ (fcf_from_ebitda Ac7 dc7).income_taxable 2 = 15 := by
  refine ⟨fun A d i hi => ?_, fun A d i h0 => ?_, ?_, ?_, ?_, ?_, ?_, ?_, ?_, ?_⟩
  · obtain ⟨k, rfl⟩ : ∃ k, i = k + 1 := ⟨i - 1, by omega⟩
    constructor
    · show nolF A d (k + 1) = max (nolF A d (k + 1 - 1) - ipF A d (k + 1)) 0
      simp [nolF, nolSeq]
    · show taxableF A d (k + 1)
        = max 0 (ipF A d (k + 1) - nolF A d (k + 1 - 1))
      simp [taxableF, taxableSeq, nolF]
  · show 0 ≤ nolF A d i
    induction i with
    | zero => exact h0
    | succ k _ => exact le_max_right _ 0
  all_goals
    norm_num [fcf_from_ebitda, nolF, nolSeq, taxableF, taxableSeq, ipF,
      interestF, daF, stream, streamAnchors, interp1d, daT, Cterm, dc7, Ac7,
      baseData]

/-- Witness for C7: the waterfall identities and nonnegativity discharged
at the concrete example year 1 (and year 2 for nonnegativity). -/
theorem c7_nol_waterfall_witness :
    (1 : ℕ) ≤ 1
  ∧ ((fcf_from_ebitda Ac7 dc7).nol 1
      = max ((fcf_from_ebitda Ac7 dc7).nol (1 - 1)
          - (fcf_from_ebitda Ac7 dc7).income_pretax 1) 0
    ∧ (fcf_from_ebitda Ac7 dc7).income_taxable 1
      = max 0 ((fcf_from_ebitda Ac7 dc7).income_pretax 1
          - (fcf_from_ebitda Ac7 dc7).nol (1 - 1)))
  ∧ 0 ≤ dc7.nol 0
  ∧ 0 ≤ (fcf_from_ebitda Ac7 dc7).nol 2 :=
  ⟨le_refl 1, c7_nol_waterfall.1 Ac7 dc7 1 (le_refl 1),
    by norm_num [dc7, baseData],
    c7_nol_waterfall.2.1 Ac7 dc7 2 (by norm_num [dc7, baseData])⟩

/-- Assumptions for the C10 failing input. -/
def Ac10 : Assumptions where
  rd := 0
  t := 1 / 4
  gt := 0
  roict := 3 / 20
  te := some 0
  year := 1
  dividend := [0]

/-- Dataset for the C10 failing input: `nol[0] = 1/2 > 0` while year-0
pretax income is `10 > 0`. -/
def dc10 : Dataset :=
  { baseData with
    ebitda := fun _ => 10
    nol := fun _ => 1 / 2 }

/-- Claim C10 is the intent of line 489 (and of its inline comment), but
the code disagrees: by Python operator precedence the factor
`(1 - nol[0] > 0)` is `(1 - nol[0]) > 0`, i.e. `nol[0] < 1`, so a small
positive NOL of `1/2` does NOT zero year-0 taxable income: with
`income_pretax[0] = 10` the code leaves `income_taxable[0] = 10 ≠ 0`. -/
theorem c10_year0_taxable_bug :
    0 < dc10.nol 0
  ∧ (fcf_from_ebitda Ac10 dc10).income_pretax 0 = 10
  ∧ (fcf_from_ebitda Ac10 dc10).income_taxable 0 = 10
  ∧ (fcf_from_ebitda Ac10 dc10).income_taxable 0 ≠ 0 := by
  norm_num [fcf_from_ebitda, taxableF, taxableSeq, nolF, nolSeq, ipF,
    interestF, daF, stream, streamAnchors, interp1d, daT, Cterm, dc10, Ac10,
    baseData]

/-- Claim C6: whenever `C = gt/roict*(1-t) < 1`, the solved terminal
depreciation `da_T = (capex_T - C*ebitda_T)/(1-C)` satisfies
`capex_T - da_T*(1-C) = C*ebitda_T` exactly, and the whole depreciation
column of `fcf_from_ebitda` is the stream interpolation anchored on this
terminal value. -/
theorem c6_terminal_depreciation (A : Assumptions) (d : Dataset)
    (hC : Cterm A < 1) :
    d.capex A.year - daT A d * (1 - Cterm A) = Cterm A * d.ebitda A.year
  ∧ (fcf_from_ebitda A d).da = stream d.da d.da_len (daT A d) A.year := by
  refine ⟨?_, rfl⟩
  have h : (1 : ℚ) - Cterm A ≠ 0 := by
    have : (0 : ℚ) < 1 - Cterm A := by linarith
    exact ne_of_gt this
  rw [daT, div_mul_cancel₀ _ h]
  ring

/-- Assumptions for the C6 witness: `C = (1/20)/(1/10)*(1-1/2) = 1/4`. -/
def Ac6 : Assumptions where
  rd := 0
  t := 1 / 2
  gt := 1 / 20
  roict := 1 / 10
  te := some 0
  year := 1
  dividend := [0]

/-- Dataset for the C6 witness. -/
def dc6 : Dataset :=
  { baseData with
    ebitda := fun _ => 8
    capex := fun _ => 3 }

/-- Witness for C6 at a concrete input with `C = 1/4 < 1`. -/
theorem c6_terminal_depreciation_witness :
    Cterm Ac6 < 1
  ∧ (dc6.capex Ac6.year - daT Ac6 dc6 * (1 - Cterm Ac6)
      = Cterm Ac6 * dc6.ebitda Ac6.year
    ∧ (fcf_from_ebitda Ac6 dc6).da = stream dc6.da dc6.da_len (daT Ac6 dc6) Ac6.year) :=
  ⟨by norm_num [Cterm, Ac6],
    c6_terminal_depreciation Ac6 dc6 (by norm_num [Cterm, Ac6])⟩

/-- Claim C9: `fcf_from_ebitda` leaves every year-0 actual of the input
columns unchanged: ebitda, sbc, capex, dwc, debt, cash, nol, noa, tax,
interest (saved and restored around the recomputation) and da (the
interpolation is exact at the year-0 anchor). -/
theorem c9_year0_actuals (A : Assumptions) (d : Dataset) (hlen : 1 ≤ d.da_len) :
    (fcf_from_ebitda A d).ebitda 0 = d.ebitda 0
  ∧ (fcf_from_ebitda A d).sbc 0 = d.sbc 0
  ∧ (fcf_from_ebitda A d).capex 0 = d.capex 0
  ∧ (fcf_from_ebitda A d).dwc 0 = d.dwc 0
  ∧ (fcf_from_ebitda A d).debt 0 = d.debt 0
  ∧ (fcf_from_ebitda A d).cash 0 = d.cash 0
  ∧ (fcf_from_ebitda A d).nol 0 = d.nol 0
  ∧ (fcf_from_ebitda A d).noa 0 = d.noa 0
  ∧ (fcf_from_ebitda A d).tax 0 = d.tax 0
  ∧ (fcf_from_ebitda A d).interest 0 = d.interest 0
  ∧ (fcf_from_ebitda A d).da 0 = d.da 0 := by
  refine ⟨rfl, rfl, rfl, rfl, rfl, rfl, rfl, rfl, rfl, rfl, ?_⟩
  show daF A d 0 = d.da 0
  exact stream_exact d.da d.da_len (daT A d) A.year 0 (by omega)

/-- Assumptions for the C9 witness. -/
def Ac9 : Assumptions where
  rd := 0
  t := 0
  gt := 0
  roict := 3 / 20
  te := some 0
  year := 1
  dividend := [0]

/-- Witness for C9 at the concrete base dataset. -/
theorem c9_year0_actuals_witness :
    1 ≤ baseData.da_len
  ∧ ((fcf_from_ebitda Ac9 baseData).ebitda 0 = baseData.ebitda 0
    ∧ (fcf_from_ebitda Ac9 baseData).sbc 0 = baseData.sbc 0
    ∧ (fcf_from_ebitda Ac9 baseData).capex 0 = baseData.capex 0
    ∧ (fcf_from_ebitda Ac9 baseData).dwc 0 = baseData.dwc 0
    ∧ (fcf_from_ebitda Ac9 baseData).debt 0 = baseData.debt 0
    ∧ (fcf_from_ebitda Ac9 baseData).cash 0 = baseData.cash 0
    ∧ (fcf_from_ebitda Ac9 baseData).nol 0 = baseData.nol 0
    ∧ (fcf_from_ebitda Ac9 baseData).noa 0 = baseData.noa 0
    ∧ (fcf_from_ebitda Ac9 baseData).tax 0 = baseData.tax 0
    ∧ (fcf_from_ebitda Ac9 baseData).interest 0 = baseData.interest 0
    ∧ (fcf_from_ebitda Ac9 baseData).da 0 = baseData.da 0) :=
  ⟨by norm_num [baseData], c9_year0_actuals Ac9 baseData (by norm_num [baseData])⟩

/-- Assumptions for the C3 failing input: `C = (1/5)/(1/10)*(1-0) = 2`,
so `1 - C < 0` and the solved terminal depreciation is negative. -/
def Ac3 : Assumptions where
  rd := 0
  t := 0
  gt := 1 / 5
  roict := 1 / 10
  te := some 0
  year := 1
  dividend := [0]

/-- Dataset for the C3 failing input: `ebitda[-1] = -1`, `capex = 0`,
giving `da_T = (0 - 2*(-1))/(1-2) = -2 < 0`. -/
def dc3 : Dataset :=
  { baseData with
    ebitda := fun i => if i = 0 then 1 else -1 }

/-- Claim C3 describes the intended error behaviour; the code has no
raise at all.  First conjunct: the `__stream` guard
`np.isnan(st) is True` (line 148) can never be satisfied, because a
`numpy.bool_` is never identical to the Python singleton `True`.
Remaining conjuncts: with an infeasible terminal depreciation
`da_T = -2 < 0` (line 466), `fcf_from_ebitda` continues and fills the
columns (negative terminal depreciation and all), instead of stopping
with an AssumptionError. -/
theorem c3_validation_only_logs :
    (∀ b : Bool, pyIs (PyVal.npBool b) (PyVal.pyBool true) = false)
  ∧ daT Ac3 dc3 = -2
  ∧ daT Ac3 dc3 < 0
  ∧ (fcf_from_ebitda Ac3 dc3).da 1 = -2
  ∧ (fcf_from_ebitda Ac3 dc3).fcf 1 = -1 := by
  refine ⟨fun b => rfl, ?_, ?_, ?_, ?_⟩ <;>
    norm_num [fcf_from_ebitda, fcfF, taxCashF, taxF, taxSeq, nolF, nolSeq,
      ipF, interestF, dDebtF, daF, stream, streamAnchors, interp1d, daT, Cterm,
      teF, dc3, Ac3, baseData]

/-- Assumptions for the C4 demonstration. -/
def Ac4 : Assumptions where
  rd := 0
  t := 0
  gt := 0
  roict := 3 / 20
  te := some 0
  year := 1
  dividend := [0]

/-- Dataset for the C4 demonstration: its fcf/fcfe/fcff columns are the
constructor placeholders, never computed by `fcf_from_ebitda`. -/
def dc4 : Dataset :=
  { baseData with
    ebitda := fun _ => 1 }

/-- Claim C4 describes the intended error behaviour; the code cannot even
detect the situation.  First conjunct: the guard `self.fin['fcf'].empty`
(lines 539, 734) is `False` for every table with `year+1 ≥ 1` rows, even
when the column holds only undefined placeholder values.  Remaining
conjuncts: `fcf_to_debt` invoked on a dataset whose FCF columns were
never computed proceeds to completion and mutates debt, instead of
stopping with a PrerequisiteError. -/
theorem c4_prerequisite_only_logs :
    (∀ n : ℕ, seriesEmpty (n + 1) = false)
  ∧ (fcf_to_debt Ac4 3 1 dc4).debt 1 = 3
  ∧ (fcf_to_debt Ac4 3 1 dc4).debt 0 = dc4.debt 0 := by
  refine ⟨fun n => rfl, ?_, ?_⟩ <;>
    norm_num [fcf_to_debt, onePass, passFrom, passStep, cashAvail,
      debtTargetCol, dc4, Ac4, baseData]

/-! ## Lemmas about the `__pv` backward walk -/

lemma pvFold_nil (rrev : List ℚ) (i : ℕ) (acc : List ℚ) :
    pvFold rrev i [] acc = acc := rfl

lemma pvFold_cons (rrev : List ℚ) (i : ℕ) (x : ℚ) (rest acc : List ℚ) :
    pvFold rrev i (x :: rest) acc
      = pvFold rrev (i + 1) rest ((x + acc.headD 0) / (1 + rrev.getD i 0) :: acc) := rfl

lemma pvFold_length (rrev : List ℚ) :
    ∀ (xs : List ℚ) (i : ℕ) (acc : List ℚ),
      (pvFold rrev i xs acc).length = xs.length + acc.length := by
  intro xs
  induction xs with
  | nil => intro i acc; simp [pvFold_nil]
  | cons x rest ih =>
    intro i acc
    rw [pvFold_cons, ih]
    simp [List.length_cons]
    omega

lemma pvFold_drop (rrev : List ℚ) :
    ∀ (xs : List ℚ) (i : ℕ) (acc : List ℚ),
      (pvFold rrev i xs acc).drop xs.length = acc := by
  intro xs
  induction xs with
  | nil => intro i acc; rfl
  | cons x rest ih =>
    intro i acc
    rw [pvFold_cons]
    have h2 := congrArg (List.drop 1) (ih (i + 1) ((x + acc.headD 0) / (1 + rrev.getD i 0) :: acc))
    rw [List.drop_drop] at h2
    simpa [List.length_cons, Nat.add_comm] using h2

lemma pvFold_getD_last (rrev : List ℚ) (xs : List ℚ) (i : ℕ) (acc : List ℚ) (c : ℚ)
    (hacc : acc.headD 0 = c) (hne : acc ≠ []) :
    (pvFold rrev i xs acc).getD xs.length 0 = c := by
  obtain ⟨a, as, rfl⟩ := List.exists_cons_of_ne_nil hne
  have hd := pvFold_drop rrev xs i (a :: as)
  have : (pvFold rrev i xs (a :: as))[xs.length]? = some a := by
    have := List.getElem?_drop (pvFold rrev i xs (a :: as)) xs.length 0
    rw [hd] at this
    simpa using this.symm
  rw [List.getD_eq_getElem?_getD, this]
  simpa using hacc

lemma pvFold_getD_rec (rrev : List ℚ) :
    ∀ (xs : List ℚ) (i : ℕ) (acc : List ℚ), acc ≠ [] → ∀ k, k < xs.length →
      (pvFold rrev i xs acc).getD k 0
        = (xs.getD (xs.length - 1 - k) 0 + (pvFold rrev i xs acc).getD (k + 1) 0)
          / (1 + rrev.getD (i + (xs.length - 1 - k)) 0) := by
  intro xs
  induction xs with
  | nil => intro i acc hacc k hk; simp at hk
  | cons x rest ih =>
    intro i acc hacc k hk
    rw [pvFold_cons]
    by_cases hcase : k < rest.length
    · have e1 : (x :: rest).length - 1 - k = rest.length - 1 - k + 1 := by
        simp [List.length_cons]
        omega
      have e2 : i + (rest.length - 1 - k + 1) = (i + 1) + (rest.length - 1 - k) := by
        omega
      rw [e1, List.getD_cons_succ, e2]
      exact ih (i + 1) _ (List.cons_ne_nil _ _) k hcase
    · have hk0 : k = rest.length := by
        simp [List.length_cons] at hk
        omega
      subst hk0
      have e1 : (x :: rest).length - 1 - rest.length = 0 := by
        simp [List.length_cons]
      rw [e1, List.getD_cons_zero, Nat.add_zero]
      obtain ⟨a, as, rfl⟩ := List.exists_cons_of_ne_nil hacc
      have hlast := pvFold_getD_last rrev rest (i + 1)
        ((x + (a :: as).headD 0) / (1 + rrev.getD i 0) :: a :: as)
        ((x + (a :: as).headD 0) / (1 + rrev.getD i 0)) rfl (List.cons_ne_nil _ _)
      have hnext : (pvFold rrev (i + 1) rest
          ((x + (a :: as).headD 0) / (1 + rrev.getD i 0) :: a :: as)).getD (rest.length + 1) 0 = a := by
        have hd := pvFold_drop rrev rest (i + 1)
          ((x + (a :: as).headD 0) / (1 + rrev.getD i 0) :: a :: as)
        have hq := List.getElem?_drop (pvFold rrev (i + 1) rest
          ((x + (a :: as).headD 0) / (1 + rrev.getD i 0) :: a :: as)) rest.length 1
        rw [hd] at hq
        rw [List.getD_eq_getElem?_getD, ← hq]
        simp
      rw [hlast, hnext]
      simp

/-- `getLastD` is `getD` at the last position. -/
lemma getLastD_eq_getD (l : List ℚ) :
    l.getLastD 0 = l.getD (l.length - 1) 0 := by
  rw [List.getLastD_eq_getLast?, List.getLast?_eq_getElem?, List.getD_eq_getElem?_getD]

/-- Claim C2 (amended): `__pv` anchors the terminal value at
`cfs[-1]*(1+g)/(r[-1]-g)` (or `cft/(r[-1]-g)` when a terminal flow is
supplied) and walks backward with
`value[i] = (cf[i+1] + value[i+1]) / (1 + r[i])`: the flow of year `i+1`
is discounted at the rate of year `i`, one position earlier than the
claimed `r[i+1]`. -/
theorem c2_pv_backward_walk (cfs r : List ℚ) (g : ℚ) (cft : Option ℚ)
    (hc : cfs ≠ []) (hr : r.length = cfs.length) :
    (pv cfs g r cft).length = cfs.length
  ∧ (pv cfs g r cft).getD (cfs.length - 1) 0 = pvTerminal cfs g r cft
  ∧ pvTerminal cfs g r none
      = cfs.getD (cfs.length - 1) 0 * (1 + g) / (r.getD (r.length - 1) 0 - g)
  ∧ (∀ c : ℚ, pvTerminal cfs g r (some c) = c / (r.getD (r.length - 1) 0 - g))
  ∧ ∀ j, j + 1 < cfs.length →
      (pv cfs g r cft).getD j 0
        = (cfs.getD (j + 1) 0 + (pv cfs g r cft).getD (j + 1) 0) / (1 + r.getD j 0) := by
  have hlen : 1 ≤ cfs.length := List.length_pos.mpr hc
  have hxs : ((cfs.drop 1).reverse).length = cfs.length - 1 := by
    simp [List.length_reverse, List.length_drop]
  refine ⟨?_, ?_, ?_, fun c => ?_, fun j hj => ?_⟩
  · rw [pv, pvFold_length, hxs]
    simp
    omega
  · rw [pv]
    have := pvFold_getD_last r.reverse ((cfs.drop 1).reverse) 1 [pvTerminal cfs g r cft]
      (pvTerminal cfs g r cft) rfl (by simp)
    rw [hxs] at this
    exact this
  · rw [pvTerminal, getLastD_eq_getD, getLastD_eq_getD, hr]
  · rw [pvTerminal, getLastD_eq_getD]
  · rw [pv]
    have hk : j < ((cfs.drop 1).reverse).length := by omega
    have hrec := pvFold_getD_rec r.reverse ((cfs.drop 1).reverse) 1
      [pvTerminal cfs g r cft] (by simp) j hk
    rw [hrec]
    have hm : ((cfs.drop 1).reverse).length - 1 - j < (cfs.drop 1).length := by
      rw [hxs]
      simp [List.length_drop]
      omega
    have hx : ((cfs.drop 1).reverse).getD (((cfs.drop 1).reverse).length - 1 - j) 0
        = cfs.getD (j + 1) 0 := by
      rw [List.getD_eq_getElem?_getD, List.getD_eq_getElem?_getD,
        List.getElem?_reverse hm]
      have e1 : (cfs.drop 1).length - 1 - (((cfs.drop 1).reverse).length - 1 - j) = j := by
        rw [hxs]
        simp [List.length_drop]
        omega
      rw [e1]
      have := List.getElem?_drop cfs 1 j
      rw [this, Nat.add_comm]
    have hrr : r.reverse.getD (1 + (((cfs.drop 1).reverse).length - 1 - j)) 0
        = r.getD j 0 := by
      have hidx : 1 + (((cfs.drop 1).reverse).length - 1 - j) = r.length - 1 - j := by
        rw [hxs, hr]
        omega
      rw [hidx, List.getD_eq_getElem?_getD, List.getD_eq_getElem?_getD]
      have hlt : r.length - 1 - j < r.length := by omega
      rw [List.getElem?_reverse hlt]
      have e2 : r.length - 1 - (r.length - 1 - j) = j := by omega
      rw [e2]
    rw [hx, hrr]

/-- Claim C2 counterexample: with year-varying rates `r = [0, 1]`,
flows `cfs = [0, 2]` and a supplied terminal flow `2`, the code produces
`value = [4, 2]`; the claimed recursion
`value[0] = (cf[1] + value[1])/(1 + r[1])` would give `2`. -/
theorem c2_pv_counterexample :
    pv [0, 2] 0 [0, 1] (some 2) = [4, 2]
  ∧ ¬ ((pv [0, 2] 0 [0, 1] (some 2)).getD 0 0
        = (([0, 2] : List ℚ).getD 1 0 + (pv [0, 2] 0 [0, 1] (some 2)).getD 1 0)
          / (1 + ([0, 1] : List ℚ).getD 1 0)) := by
  norm_num [pv, pvFold, pvTerminal]

/-- Witness for C2 at a concrete three-year input with year-varying
rates. -/
theorem c2_pv_backward_walk_witness :
    ([1, 2, 3] : List ℚ) ≠ []
  ∧ ([1/10, 1/5, 3/10] : List ℚ).length = ([1, 2, 3] : List ℚ).length
  ∧ (pv [1, 2, 3] (1/20) [1/10, 1/5, 3/10] none).getD 0 0
      = (([1, 2, 3] : List ℚ).getD 1 0
          + (pv [1, 2, 3] (1/20) [1/10, 1/5, 3/10] none).getD 1 0)
        / (1 + ([1/10, 1/5, 3/10] : List ℚ).getD 0 0) :=
  ⟨by simp, by simp,
    (c2_pv_backward_walk [1, 2, 3] [1/10, 1/5, 3/10] (1/20) none (by simp)
      (by simp)).2.2.2.2 0 (by norm_num)⟩

/-! ## Idempotence of `fcf_from_ebitda`

The recurrences depend on their driver sequences only up to the current
index, so congruence lemmas over a bounded prefix suffice, and a second
run reads back exactly the values the first run wrote: the saved year-0
actuals, the unchanged input columns, and the interpolated depreciation,
which a second interpolation (now over the fully populated column)
reproduces because the interpolant is exact at anchors. -/

lemma nolSeq_congr (n0 : ℚ) (f g : ℕ → ℚ) :
    ∀ i, (∀ k, k ≤ i → f k = g k) → nolSeq n0 f i = nolSeq n0 g i := by
  intro i
  induction i with
  | zero => intro _; rfl
  | succ k ih =>
    intro h
    simp only [nolSeq]
    rw [ih fun m hm => h m (by omega), h (k + 1) (le_refl _)]

lemma taxableSeq_congr (n0 : ℚ) (f g : ℕ → ℚ) (i : ℕ)
    (h : ∀ k, k ≤ i → f k = g k) : taxableSeq n0 f i = taxableSeq n0 g i := by
  cases i with
  | zero =>
    simp only [taxableSeq]
    rw [h 0 (le_refl _)]
  | succ k =>
    simp only [taxableSeq]
    rw [h (k + 1) (le_refl _), nolSeq_congr n0 f g k fun m hm => h m (by omega)]

lemma taxSeq_congr (t0 te t : ℚ) (f g : ℕ → ℚ) :
    ∀ i, (∀ k, k ≤ i → f k = g k) → taxSeq t0 te t f i = taxSeq t0 te t g i := by
  intro i
  induction i using Nat.strong_induction_on with
  | _ i ih =>
    match i with
    | 0 => intro _; rfl
    | 1 =>
      intro h
      simp only [taxSeq]
      rw [h 1 (le_refl _)]
    | k + 2 =>
      intro h
      simp only [taxSeq]
      rw [ih (k + 1) (by omega) fun m hm => h m (by omega),
        h (k + 2) (le_refl _), h (k + 1) (by omega)]

lemma cumFcfe_congr (c : ℚ) (f g : ℕ → ℚ) :
    ∀ i, (∀ k, k ≤ i → f k = g k) → cumFcfe c f i = cumFcfe c g i := by
  intro i
  induction i with
  | zero => intro _; rfl
  | succ k ih =>
    intro h
    simp only [cumFcfe]
    rw [ih fun m hm => h m (by omega), h (k + 1) (le_refl _)]

lemma dividendPolicy_congr (sched : List ℚ) (sh f g : ℕ → ℚ) :
    ∀ i, (∀ k, k ≤ i → f k = g k) →
      dividendPolicy sched sh f i = dividendPolicy sched sh g i := by
  intro i
  induction i with
  | zero =>
    intro h
    by_cases hl : 0 < sched.length
    · simp only [dividendPolicy, if_pos hl]
    · simp only [dividendPolicy, if_neg hl]
      have e : sched.length - 1 = 0 := by omega
      rw [e, h 0 (le_refl _)]
  | succ k ih =>
    intro h
    by_cases hl : k + 1 < sched.length
    · simp only [dividendPolicy, if_pos hl]
    · simp only [dividendPolicy, if_neg hl]
      rw [h (sched.length - 1) (by omega), h (k + 1) (le_refl _),
        ih fun m hm => h m (by omega)]

lemma interestF_second (A : Assumptions) (d : Dataset) :
    interestF A (fcf_from_ebitda A d) = interestF A d := by
  funext i
  cases i with
  | zero => rfl
  | succ k => rfl

lemma dDebtF_second (A : Assumptions) (d : Dataset) :
    dDebtF (fcf_from_ebitda A d) = dDebtF d := by
  funext i
  cases i with
  | zero => rfl
  | succ k => rfl

lemma daF_second (A : Assumptions) (d : Dataset) (j : ℕ) (hj : j ≤ A.year) :
    daF A (fcf_from_ebitda A d) j = daF A d j :=
  stream_exact (daF A d) (A.year + 1) (daT A (fcf_from_ebitda A d)) A.year j
    (by omega)

lemma ipF_second (A : Assumptions) (d : Dataset) (j : ℕ) (hj : j ≤ A.year) :
    ipF A (fcf_from_ebitda A d) j = ipF A d j := by
  show (fcf_from_ebitda A d).ebitda j - (fcf_from_ebitda A d).sbc j
      - daF A (fcf_from_ebitda A d) j - interestF A (fcf_from_ebitda A d) j
    = ipF A d j
  rw [interestF_second, daF_second A d j hj]
  rfl

lemma teF_second (A : Assumptions) (d : Dataset) (hy : 1 ≤ A.year) :
    teF A (fcf_from_ebitda A d) = teF A d := by
  cases hte : A.te with
  | some x => simp [teF, hte]
  | none =>
    simp only [teF, hte]
    rw [ipF_second A d 0 (by omega), ipF_second A d 1 (by omega)]
    rfl

lemma nolF_second (A : Assumptions) (d : Dataset) (j : ℕ) (hj : j ≤ A.year) :
    nolF A (fcf_from_ebitda A d) j = nolF A d j :=
  nolSeq_congr (d.nol 0) (ipF A (fcf_from_ebitda A d)) (ipF A d) j
    fun k hk => ipF_second A d k (le_trans hk hj)

lemma taxableF_second (A : Assumptions) (d : Dataset) (j : ℕ) (hj : j ≤ A.year) :
    taxableF A (fcf_from_ebitda A d) j = taxableF A d j :=
  taxableSeq_congr (d.nol 0) (ipF A (fcf_from_ebitda A d)) (ipF A d) j
    fun k hk => ipF_second A d k (le_trans hk hj)

lemma taxF_second (A : Assumptions) (d : Dataset) (hy : 1 ≤ A.year) (j : ℕ)
    (hj : j ≤ A.year) : taxF A (fcf_from_ebitda A d) j = taxF A d j := by
  show taxSeq (d.tax 0) (teF A (fcf_from_ebitda A d)) A.t
      (ipF A (fcf_from_ebitda A d)) j = taxF A d j
  rw [teF_second A d hy]
  exact taxSeq_congr (d.tax 0) (teF A d) A.t _ _ j
    fun k hk => ipF_second A d k (le_trans hk hj)

lemma taxCashF_second (A : Assumptions) (d : Dataset) (hy : 1 ≤ A.year) (j : ℕ)
    (hj : j ≤ A.year) : taxCashF A (fcf_from_ebitda A d) j = taxCashF A d j := by
  cases j with
  | zero => rfl
  | succ k =>
    show taxF A (fcf_from_ebitda A d) (k + 1)
        + A.t * min (nolF A (fcf_from_ebitda A d) (k + 1)
          - nolF A (fcf_from_ebitda A d) k) 0
      = taxCashF A d (k + 1)
    rw [taxF_second A d hy (k + 1) hj, nolF_second A d (k + 1) hj,
      nolF_second A d k (by omega)]
    rfl

lemma fcfF_second (A : Assumptions) (d : Dataset) (hy : 1 ≤ A.year) (j : ℕ)
    (hj : j ≤ A.year) : fcfF A (fcf_from_ebitda A d) j = fcfF A d j := by
  show (fcf_from_ebitda A d).ebitda j - (fcf_from_ebitda A d).sbc j
      - taxCashF A (fcf_from_ebitda A d) j - (fcf_from_ebitda A d).capex j
      - (fcf_from_ebitda A d).dwc j - interestF A (fcf_from_ebitda A d) j
    = fcfF A d j
  rw [taxCashF_second A d hy j hj, interestF_second]
  rfl

lemma fcfeF_second (A : Assumptions) (d : Dataset) (hy : 1 ≤ A.year) (j : ℕ)
    (hj : j ≤ A.year) : fcfeF A (fcf_from_ebitda A d) j = fcfeF A d j := by
  show (fcf_from_ebitda A d).ebitda j - (fcf_from_ebitda A d).sbc j
      - taxCashF A (fcf_from_ebitda A d) j - (fcf_from_ebitda A d).capex j
      - (fcf_from_ebitda A d).dwc j + dDebtF (fcf_from_ebitda A d) j
      - interestF A (fcf_from_ebitda A d) j - (fcf_from_ebitda A d).MnA j
    = fcfeF A d j
  rw [taxCashF_second A d hy j hj, interestF_second, dDebtF_second]
  rfl

lemma fcffF_second (A : Assumptions) (d : Dataset) (hy : 1 ≤ A.year) (j : ℕ)
    (hj : j ≤ A.year) : fcffF A (fcf_from_ebitda A d) j = fcffF A d j := by
  show (fcf_from_ebitda A d).ebitda j - (fcf_from_ebitda A d).sbc j
      - taxCashF A (fcf_from_ebitda A d) j - (fcf_from_ebitda A d).capex j
      - (fcf_from_ebitda A d).dwc j - interestF A (fcf_from_ebitda A d) j * A.t
      - (fcf_from_ebitda A d).MnA j
    = fcffF A d j
  rw [taxCashF_second A d hy j hj, interestF_second]
  rfl

/-- The pointwise statement that a second `fcf_from_ebitda` run reproduces
the first run's value in every column at year `j`. -/
def IdemAt (A : Assumptions) (d : Dataset) (j : ℕ) : Prop :=
  (fcf_from_ebitda A (fcf_from_ebitda A d)).ebitda j = (fcf_from_ebitda A d).ebitda j
  ∧ (fcf_from_ebitda A (fcf_from_ebitda A d)).sbc j = (fcf_from_ebitda A d).sbc j
  ∧ (fcf_from_ebitda A (fcf_from_ebitda A d)).capex j = (fcf_from_ebitda A d).capex j
  ∧ (fcf_from_ebitda A (fcf_from_ebitda A d)).dwc j = (fcf_from_ebitda A d).dwc j
  ∧ (fcf_from_ebitda A (fcf_from_ebitda A d)).debt j = (fcf_from_ebitda A d).debt j
  ∧ (fcf_from_ebitda A (fcf_from_ebitda A d)).MnA j = (fcf_from_ebitda A d).MnA j
  ∧ (fcf_from_ebitda A (fcf_from_ebitda A d)).buybacks j = (fcf_from_ebitda A d).buybacks j
  ∧ (fcf_from_ebitda A (fcf_from_ebitda A d)).shares j = (fcf_from_ebitda A d).shares j
  ∧ (fcf_from_ebitda A (fcf_from_ebitda A d)).debt_Target j = (fcf_from_ebitda A d).debt_Target j
  ∧ (fcf_from_ebitda A (fcf_from_ebitda A d)).interest j = (fcf_from_ebitda A d).interest j
  ∧ (fcf_from_ebitda A (fcf_from_ebitda A d)).da j = (fcf_from_ebitda A d).da j
  ∧ (fcf_from_ebitda A (fcf_from_ebitda A d)).income_pretax j = (fcf_from_ebitda A d).income_pretax j
  ∧ (fcf_from_ebitda A (fcf_from_ebitda A d)).dDebt j = (fcf_from_ebitda A d).dDebt j
  ∧ (fcf_from_ebitda A (fcf_from_ebitda A d)).nol j = (fcf_from_ebitda A d).nol j
  ∧ (fcf_from_ebitda A (fcf_from_ebitda A d)).income_taxable j = (fcf_from_ebitda A d).income_taxable j
  ∧ (fcf_from_ebitda A (fcf_from_ebitda A d)).tax j = (fcf_from_ebitda A d).tax j
  ∧ (fcf_from_ebitda A (fcf_from_ebitda A d)).tax_cash j = (fcf_from_ebitda A d).tax_cash j
  ∧ (fcf_from_ebitda A (fcf_from_ebitda A d)).fcf j = (fcf_from_ebitda A d).fcf j
  ∧ (fcf_from_ebitda A (fcf_from_ebitda A d)).fcfe j = (fcf_from_ebitda A d).fcfe j
  ∧ (fcf_from_ebitda A (fcf_from_ebitda A d)).fcff j = (fcf_from_ebitda A d).fcff j
  ∧ (fcf_from_ebitda A (fcf_from_ebitda A d)).dividend_policy j = (fcf_from_ebitda A d).dividend_policy j
  ∧ (fcf_from_ebitda A (fcf_from_ebitda A d)).dividend j = (fcf_from_ebitda A d).dividend j
  ∧ (fcf_from_ebitda A (fcf_from_ebitda A d)).cash j = (fcf_from_ebitda A d).cash j
  ∧ (fcf_from_ebitda A (fcf_from_ebitda A d)).noa j = (fcf_from_ebitda A d).noa j

/-- Claim C5: running `fcf_from_ebitda` twice in succession with no
intervening state change reproduces the first run's dataset exactly
(every column at every year of the horizon, and the defined length of the
depreciation column). -/
theorem c5_fcf_from_ebitda_idempotent (A : Assumptions) (d : Dataset)
    (hy : 1 ≤ A.year) :
    (fcf_from_ebitda A (fcf_from_ebitda A d)).da_len = (fcf_from_ebitda A d).da_len
  ∧ ∀ j, j ≤ A.year → IdemAt A d j := by
  refine ⟨rfl, fun j hj => ?_⟩
  refine ⟨rfl, rfl, rfl, rfl, rfl, rfl, rfl, rfl, rfl, ?_, ?_, ?_, ?_, ?_, ?_,
    ?_, ?_, ?_, ?_, ?_, ?_, ?_, ?_, rfl⟩
  · exact congrFun (interestF_second A d) j
  · exact daF_second A d j hj
  · exact ipF_second A d j hj
  · exact congrFun (dDebtF_second A d) j
  · exact nolF_second A d j hj
  · exact taxableF_second A d j hj
  · exact taxF_second A d hy j hj
  · exact taxCashF_second A d hy j hj
  · exact fcfF_second A d hy j hj
  · exact fcfeF_second A d hy j hj
  · exact fcffF_second A d hy j hj
  · show dividendPolicy A.dividend (fcf_from_ebitda A d).shares
        (fcfF A (fcf_from_ebitda A d)) j
      = dividendPolicy A.dividend d.shares (fcfF A d) j
    exact dividendPolicy_congr A.dividend d.shares _ _ j
      fun k hk => fcfF_second A d hy k (le_trans hk hj)
  · show (fcfeF A (fcf_from_ebitda A d) j - (fcf_from_ebitda A d).buybacks j)
        / (fcf_from_ebitda A d).shares j
      = (fcfeF A d j - d.buybacks j) / d.shares j
    rw [fcfeF_second A d hy j hj]
    rfl
  · show cumFcfe ((fcf_from_ebitda A d).cash 0) (fcfeF A (fcf_from_ebitda A d)) j
      = cumFcfe (d.cash 0) (fcfeF A d) j
    exact cumFcfe_congr (d.cash 0) _ _ j
      fun k hk => fcfeF_second A d hy k (le_trans hk hj)

/-- Assumptions for the C5 witness. -/
def Ac5 : Assumptions where
  rd := 0
  t := 0
  gt := 0
  roict := 3 / 20
  te := some 0
  year := 1
  dividend := [0]

/-- Witness for C5 at the concrete base dataset and year 1. -/
theorem c5_fcf_from_ebitda_idempotent_witness :
    1 ≤ Ac5.year ∧ IdemAt Ac5 baseData 1 :=
  ⟨by norm_num [Ac5],
    (c5_fcf_from_ebitda_idempotent Ac5 baseData (by norm_num [Ac5])).2 1
      (by norm_num [Ac5])⟩

/-! ## Debt-targeting lemmas for `fcf_to_debt` -/

lemma passStep_debt_Target (s : Dataset) (i : ℕ) :
    (passStep s i).debt_Target = s.debt_Target := rfl

lemma passFrom_debt_Target :
    ∀ (cnt : ℕ) (s : Dataset) (i : ℕ),
      (passFrom s i cnt).debt_Target = s.debt_Target := by
  intro cnt
  induction cnt with
  | zero => intro s i; rfl
  | succ k ih => intro s i; exact ih (passStep s i) (i + 1)

lemma passFrom_debt_low :
    ∀ (cnt : ℕ) (s : Dataset) (i j : ℕ), j ≤ i →
      (passFrom s i cnt).debt j = s.debt j := by
  intro cnt
  induction cnt with
  | zero => intro s i j _; rfl
  | succ k ih =>
    intro s i j hj
    show (passFrom (passStep s i) (i + 1) k).debt j = s.debt j
    rw [ih (passStep s i) (i + 1) j (by omega)]
    show (if j = i + 1 then s.debt i + _ else s.debt j) = s.debt j
    rw [if_neg (by omega)]

lemma passFrom_add :
    ∀ (m cnt : ℕ) (s : Dataset) (i : ℕ),
      passFrom s i (m + cnt) = passFrom (passFrom s i m) (i + m) cnt := by
  intro m
  induction m with
  | zero =>
    intro cnt s i
    rw [Nat.zero_add]
    rfl
  | succ k ih =>
    intro cnt s i
    have e : k + 1 + cnt = (k + cnt) + 1 := by omega
    rw [e]
    show passFrom (passStep s i) (i + 1) (k + cnt)
      = passFrom (passFrom (passStep s i) (i + 1) k) (i + (k + 1)) cnt
    rw [ih cnt (passStep s i) (i + 1),
      show i + 1 + k = i + (k + 1) from by omega]

/-- The state after two full (pass; recompute) rounds of `fcf_to_debt`,
with the target column set. -/
def debtPass2 (A : Assumptions) (lev : ℚ) (year_d : ℕ) (d : Dataset) : Dataset :=
  fcf_from_ebitda A (onePass year_d A.year
    (fcf_from_ebitda A (onePass year_d A.year
      { d with debt_Target := debtTargetCol lev d })))

/-- The intermediate state of the third relaxation pass after `k` year
steps. -/
def pass3state (A : Assumptions) (lev : ℚ) (year_d : ℕ) (d : Dataset) (k : ℕ) : Dataset :=
  passFrom (debtPass2 A lev year_d d) (year_d - 1) k

/-- Claim C8 (amended): the per-year target is `leverage*ebitda[i]` when
`ebitda[i] > 0` and `0` otherwise; `fcf_to_debt` is exactly three
relaxation passes each followed by a full `fcf_from_ebitda` re-run; and
after the three passes every adjusted year `j` with `year_d ≤ j ≤ H`
(years before `year_d`, in particular year 0, are never touched) whose
ebitda is positive and whose over-leverage cash constraint is not binding
at its step of the third pass ends with `debt[j] = leverage*ebitda[j]`
exactly. -/
theorem c8_debt_targeting (A : Assumptions) (lev : ℚ) (year_d : ℕ) (d : Dataset)
    (hyd : 1 ≤ year_d) (j : ℕ) (hj1 : year_d ≤ j) (hj2 : j ≤ A.year)
    (hpos : 0 < d.ebitda j)
    (hnb : (pass3state A lev year_d d (j - year_d)).debt (j - 1)
            - (pass3state A lev year_d d (j - year_d)).debt_Target j < 0
         ∨ (pass3state A lev year_d d (j - year_d)).debt (j - 1)
            - (pass3state A lev year_d d (j - year_d)).debt_Target j
            ≤ cashAvail (pass3state A lev year_d d (j - year_d)) (j - 1)) :
    (∀ i : ℕ, debtTargetCol lev d i = if 0 < d.ebitda i then lev * d.ebitda i else 0)
  ∧ fcf_to_debt A lev year_d d
      = fcf_from_ebitda A (onePass year_d A.year (debtPass2 A lev year_d d))
  ∧ (fcf_to_debt A lev year_d d).debt j = lev * d.ebitda j := by
  refine ⟨fun i => rfl, rfl, ?_⟩
  have hj0 : 1 ≤ j := le_trans hyd hj1
  have hjsucc : j - 1 + 1 = j := by omega
  -- the target column survives every pass and every recompute
  have htarget : ∀ k, (pass3state A lev year_d d k).debt_Target = debtTargetCol lev d := by
    intro k
    show (passFrom (debtPass2 A lev year_d d) (year_d - 1) k).debt_Target = _
    rw [passFrom_debt_Target, debtPass2, ffe_debt_Target]
    show (passFrom _ (year_d - 1) _).debt_Target = _
    rw [passFrom_debt_Target, ffe_debt_Target]
    show (passFrom _ (year_d - 1) _).debt_Target = _
    rw [passFrom_debt_Target]
  have htj : (pass3state A lev year_d d (j - year_d)).debt_Target j = lev * d.ebitda j := by
    rw [htarget]
    show (if 0 < d.ebitda j then lev * d.ebitda j else 0) = lev * d.ebitda j
    rw [if_pos hpos]
  -- peel the final recompute, then split the third pass at step j-1
  show (fcf_from_ebitda A (onePass year_d A.year (debtPass2 A lev year_d d))).debt j
    = lev * d.ebitda j
  rw [ffe_debt]
  show (passFrom (debtPass2 A lev year_d d) (year_d - 1)
      (A.year - (year_d - 1))).debt j = lev * d.ebitda j
  have hcnt : A.year - (year_d - 1) = (j - year_d) + (A.year - j + 1) := by omega
  rw [hcnt, passFrom_add, show year_d - 1 + (j - year_d) = j - 1 from by omega]
  have hcnt2 : A.year - j + 1 = (A.year - j) + 1 := rfl
  rw [hcnt2]
  show (passFrom (passStep (pass3state A lev year_d d (j - year_d)) (j - 1))
      (j - 1 + 1) (A.year - j)).debt j = lev * d.ebitda j
  rw [hjsucc, passFrom_debt_low (A.year - j) _ j j (le_refl j)]
  -- the step at j-1 itself
  set t := pass3state A lev year_d d (j - year_d) with ht
  show (passStep t (j - 1)).debt j = lev * d.ebitda j
  rw [passStep]
  show (if j = j - 1 + 1 then t.debt (j - 1) + _ else t.debt j) = lev * d.ebitda j
  rw [if_pos (by omega)]
  rw [hjsucc]
  by_cases hc : t.debt (j - 1) - t.debt_Target j < 0
  · rw [if_pos hc, ← htj]
    ring
  · rw [if_neg hc]
    have hle := hnb.resolve_left hc
    rw [min_eq_left hle, ← htj]
    ring

/-- Assumptions for the C8 witness. -/
def Ac8 : Assumptions where
  rd := 0
  t := 0
  gt := 0
  roict := 3 / 20
  te := some 0
  year := 1
  dividend := [0]

/-- Dataset for the C8 witness: unit ebitda, no debt, so year 1 is
under-levered against a target of 3. -/
def dc8 : Dataset :=
  { baseData with
    ebitda := fun _ => 1 }

/-- Witness for C8: at the concrete under-levered input the year-1
constraint is not binding and `fcf_to_debt` hits the target exactly. -/
theorem c8_debt_targeting_witness :
    1 ≤ (1 : ℕ)
  ∧ 1 ≤ Ac8.year
  ∧ 0 < dc8.ebitda 1
  ∧ (pass3state Ac8 3 1 dc8 (1 - 1)).debt (1 - 1)
      - (pass3state Ac8 3 1 dc8 (1 - 1)).debt_Target 1 < 0
  ∧ (fcf_to_debt Ac8 3 1 dc8).debt 1 = 3 * dc8.ebitda 1 := by
  refine ⟨le_refl 1, ?_, ?_, ?_, ?_⟩
  · norm_num [Ac8]
  · norm_num [dc8, baseData]
  · norm_num [pass3state, debtPass2, onePass, passFrom, passStep, cashAvail,
      debtTargetCol, Ac8, dc8, baseData]
  · exact (c8_debt_targeting Ac8 3 1 dc8 (le_refl 1) 1 (le_refl 1)
      (by norm_num [Ac8]) (by norm_num [dc8, baseData])
      (Or.inl (by norm_num [pass3state, debtPass2, onePass, passFrom, passStep,
        cashAvail, debtTargetCol, Ac8, dc8, baseData]))).2.2

/-- Assumptions for the C8 counterexample. -/
def Ac8x : Assumptions where
  rd := 0
  t := 0
  gt := 0
  roict := 3 / 20
  te := some 0
  year := 1
  dividend := [0]

/-- Dataset for the C8 counterexample: positive year-0 ebitda with debt
well below target. -/
def dc8x : Dataset :=
  { baseData with
    ebitda := fun _ => 10
    debt := fun _ => 5 }

/-- Claim C8 counterexample: year 0 has positive ebitda and no binding
cash constraint (its debt is simply never adjusted: the loop starts at
`year_d - 1` and writes `debt[i+1]`), yet after `fcf_to_debt` its debt is
the untouched 5, not `leverage*ebitda[0] = 30`.  The claim's "every year"
therefore fails. -/
theorem c8_debt_targeting_counterexample :
    0 < dc8x.ebitda 0
  ∧ (fcf_to_debt Ac8x 3 1 dc8x).debt 0 = dc8x.debt 0
  ∧ (fcf_to_debt Ac8x 3 1 dc8x).debt 0 ≠ 3 * dc8x.ebitda 0 := by
  refine ⟨?_, ?_, ?_⟩ <;>
    norm_num [fcf_to_debt, onePass, passFrom, passStep, cashAvail,
      debtTargetCol, Ac8x, dc8x, baseData]

end Company
